import Mathlib

/-!
# pyvaultlib — shallow embedding and verification

A shallow embedding of the `pyvaultlib` package (files
`secret_manager.py`, `certificate_util.py`, `key_vault_service.py`)
and proofs of the specification claims about it.

Modelling conventions:
* Python `str` is modelled as `List Char` (`Str` below); `str.startswith`
  is `List.isPrefixOf` of the candidate prefix, `s.replace(c, "")` for a
  one-character pattern is a filter dropping that character.
* Python exceptions are an explicit `Except PyError _` result; the
  distinct exception classes raised by the source (`ValueError`,
  `RuntimeError`, plain `Exception`) are distinct constructors.
* The filesystem side effects of `tempfile` / PowerShell export /
  `os.remove` are explicit state passing over a `Disk` value (a list of
  path–contents pairs); functions that mutate the disk take and return it.
* External collaborators (the Azure `SecretClient` fetch, the Windows
  certificate store, `os.environ`, `inspect.stack`) are parameters:
  the fetch is an arbitrary function, the certificate store a list of
  entries, the environment a finite map, and the result of
  `get_calling_app_name()` (stack introspection) a plain argument.
-/

/-- Python strings, modelled as lists of characters. -/
abbrev Str := List Char

/-- Literal helper: the character list of a Lean string literal. -/
def strLit (s : String) : Str := s.data

/-- Models Python `s.startswith(pre)`: `pre` is a prefix of `s`
(exact, case-sensitive comparison of characters). -/
def pyStartswith (s pre : Str) : Bool := pre.isPrefixOf s

/-- Models Python `s.replace(c, "")` for a single-character pattern `c`:
every occurrence of `c` is dropped, all other characters kept in order. -/
def pyReplaceChar (s : Str) (c : Char) : Str := s.filter (fun x => x ≠ c)

/-- Python truthiness of an optional string: `None` and `""` are falsy. -/
def truthy : Option Str → Bool
  | none => false
  | some s => !s.isEmpty

/-- The exception classes raised by the source, as distinct constructors:
`valueError` models `ValueError` (raised by `SecretManager.__init__`),
`runtimeError` models `RuntimeError` (raised by
`WindowsCertCredential._export_cert_with_powershell`), `exception` models a
plain `Exception` (raised by `KeyVaultService.__init__`), and `fetchError`
models the Azure SDK errors a remote `get_secret` call can raise
(not-found, access denied, network fault — the source catches them all). -/
inductive PyError where
  | valueError : String → PyError
  | runtimeError : String → PyError
  | exception : String → PyError
  | fetchError : String → PyError
deriving DecidableEq

/-! ## secret_manager.py -/

/-- Class `SecretManager` (`secret_manager.py` lines 24–53): holds the config
scope and the derived name `prefix` string `"{app}-{scope}--"`.
The field is called `prefixStr` here. -/
structure SecretManager where
  config_scope : Str
  prefixStr : Str
deriving DecidableEq

/-- The `ValueError` message of `secret_manager.py` line 51. -/
def missingScopeMessage : String :=
  "Configuration scope must be set (e.g., AzureDbSettings, FTPserverSettings, PRD)."

/-- Models `SecretManager.__init__` (`secret_manager.py` lines 37–53).
`callingAppName` is the result of `get_calling_app_name()` — the source
derives it by `inspect.stack()` introspection, which is abstracted here as
an argument.  Raises `ValueError` when `config_scope` is falsy (`None` or
the empty string); otherwise stores the scope and builds the
`"{project_prefix}-{config_scope}--"` string. -/
def secretManagerInit (callingAppName : Str) (config_scope : Option Str) :
    Except PyError SecretManager :=
  if truthy config_scope then
    let cs := config_scope.getD []
    .ok ⟨cs, callingAppName ++ strLit "-" ++ cs ++ strLit "--"⟩
  else
    .error (.valueError missingScopeMessage)

/-- Models `SecretManager.load` (`secret_manager.py` lines 55–65):
`secret_properties.name.startswith(self.prefix)`.  The argument is the
`name` attribute of the secret's properties object. -/
def SecretManager.load (m : SecretManager) (propertiesName : Str) : Bool :=
  pyStartswith propertiesName m.prefixStr

/-- A secret record returned by the remote store
(`azure.keyvault.secrets.KeyVaultSecret`): a name and a value.  In the SDK
`secret.name` delegates to `secret.properties.name`, so a single `name`
field models both. -/
structure SecretRecord where
  name : Str
  value : Str
deriving DecidableEq

/-- Models `SecretManager.get_value` (`secret_manager.py` lines 67–79): the
secret's value if `secret.name` starts with the prefix, else `None`. -/
def SecretManager.get_value (m : SecretManager) (secret : SecretRecord) :
    Option Str :=
  if pyStartswith secret.name m.prefixStr then some secret.value else none

/-! ## Filesystem state -/

/-- The filesystem, as far as the library touches it: a list of
path–contents pairs.  `tempfile.NamedTemporaryFile(delete=False)` creates
an (empty) file, the PowerShell script writes bytes to a path, and
`os.remove` deletes a path. -/
structure Disk where
  files : List (Str × Str)
deriving DecidableEq

/-- Models `os.path.exists(p)`. -/
def Disk.pathExists (d : Disk) (p : Str) : Bool :=
  d.files.any (fun f => f.1 == p)

/-- The disk after writing contents `c` to path `p` (creating or
overwriting the file). -/
def Disk.write (d : Disk) (p c : Str) : Disk :=
  ⟨(p, c) :: d.files.filter (fun f => f.1 != p)⟩

/-- Models `os.remove(p)`: deletes the file, raising `FileNotFoundError`
(`runtimeError` here) when the path does not exist. -/
def osRemove (d : Disk) (p : Str) : Except PyError Disk :=
  if d.pathExists p then
    .ok ⟨d.files.filter (fun f => f.1 != p)⟩
  else
    .error (.runtimeError "FileNotFoundError")

/-- Deterministic pool of temporary file names, models the unique names
`tempfile` hands out (suffix `.pfx`). -/
def tmpName (n : Nat) : Str := strLit ("tmp" ++ toString n ++ ".pfx")

/-- Models `tempfile.NamedTemporaryFile(delete=False, suffix=".pfx")`:
picks a name from the pool not already present on the disk. -/
def freshTempPath (d : Disk) : Str :=
  ((List.range (d.files.length + 1)).find?
    (fun n => !d.pathExists (tmpName n))).map tmpName |>.getD (tmpName 0)

/-! ## certificate_util.py -/

/-- An entry of the Windows certificate store `Cert:\CurrentUser\My`:
its thumbprint and the PFX bytes `$cert.Export("PFX", password)` would
produce (the dependence of the bytes on the password is not modelled). -/
structure CertStoreEntry where
  thumbprint : Str
  pfxBytes : Str
deriving DecidableEq

/-- PowerShell string equality (`-eq`), which is case-insensitive. -/
def psStrEq (a b : Str) : Bool :=
  a.map Char.toLower == b.map Char.toLower

/-- The PowerShell script run by `_export_cert_with_powershell`
(`certificate_util.py` lines 59–68): filters the store by
`$_.Thumbprint -eq $thumb`, throws `"Certificate not found."` when no
entry matches, else returns the exported PFX bytes. -/
def psExportScript (store : List CertStoreEntry) (thumb : Str) :
    Except String Str :=
  match store.find? (fun e => psStrEq e.thumbprint thumb) with
  | none => .error "Certificate not found."
  | some e => .ok e.pfxBytes

/-- Models `WindowsCertCredential._export_cert_with_powershell`
(`certificate_util.py` lines 46–75).  First creates the temporary file
(empty, `delete=False`), then runs the PowerShell script; on a non-zero
exit it raises `RuntimeError` with the stderr text — note the temporary
file has already been created and is not removed on that path.  On
success the script has written the PFX bytes to the path. -/
def exportCertWithPowershell (store : List CertStoreEntry)
    (thumb : Str) (d : Disk) : Disk × Except PyError Str :=
  let path := freshTempPath d
  let d1 := d.write path []
  match psExportScript store thumb with
  | .error msg =>
      (d1, .error (.runtimeError ("PowerShell export failed:\n" ++ msg)))
  | .ok bytes => (d1.write path bytes, .ok path)

/-- The `azure.identity.CertificateCredential` construction arguments, as an
opaque record (the SDK object itself is a boundary). -/
structure Credential where
  tenant_id : Str
  client_id : Str
  certificate_path : Str
  password : Option Str
deriving DecidableEq

/-- The `WindowsCertCredential` object after a successful `__init__`
(`certificate_util.py` lines 29–44). -/
structure WindowsCertCredential where
  tenant_id : Str
  client_id : Str
  thumbprint : Str
  password : Str
  pfxPath : Str
  credential : Credential
deriving DecidableEq

/-- Models `WindowsCertCredential.__init__` (`certificate_util.py` lines 29–44):
normalizes the thumbprint with `thumbprint.replace(" ", "")`, exports the
certificate to a temporary PFX file, then builds the
`CertificateCredential` (`_create_credential`, lines 77–89, with
`password=self.password if self.password else None`).  An export failure
propagates and no object is produced. -/
def windowsCertCredentialInit (store : List CertStoreEntry)
    (tenant_id client_id thumbprint password : Str) (d : Disk) :
    Disk × Except PyError WindowsCertCredential :=
  let thumb := pyReplaceChar thumbprint ' '
  match exportCertWithPowershell store thumb d with
  | (d1, .error e) => (d1, .error e)
  | (d1, .ok path) =>
      let cred : Credential :=
        ⟨tenant_id, client_id, path,
         if password.isEmpty then none else some password⟩
      (d1, .ok ⟨tenant_id, client_id, thumb, password, path, cred⟩)

/-- Models `WindowsCertCredential.cleanup` (`certificate_util.py` lines 91–98):
`if self._pfx_path and os.path.exists(self._pfx_path): os.remove(...)`.
The guard makes the `os.remove` call safe; when the guard is false the
method does nothing. -/
def wccCleanup (w : WindowsCertCredential) (d : Disk) :
    Disk × Except PyError Unit :=
  if !w.pfxPath.isEmpty && d.pathExists w.pfxPath then
    match osRemove d w.pfxPath with
    | .ok d1 => (d1, .ok ())
    | .error e => (d, .error e)
  else
    (d, .ok ())

/-! ## key_vault_service.py -/

/-- The process environment: a finite map from variable names to values.
A variable absent from the list is unset (`os.getenv` returns `None`). -/
structure Env where
  vars : List (String × Str)
deriving DecidableEq

/-- Models `os.getenv(var)`. -/
def Env.getenv (e : Env) (var : String) : Option Str :=
  (e.vars.find? (fun p => p.1 == var)).map (fun p => p.2)

/-- The two `logging.warning` messages `_try_get_env` can emit, carrying
the variable name (so warnings for different variables are distinct):
`null var` models `"[WARN] Env var var is NULL."` and `empty var` models
`"[WARN] Env var var is EMPTY."`. -/
inductive Warning where
  | null : String → Warning
  | empty : String → Warning
deriving DecidableEq

/-- Models `KeyVaultService._try_get_env` (`key_vault_service.py` lines 60–76):
returns the environment value (possibly `None`) together with the
warnings logged — one when the variable is unset, one when it is set to
the empty string and `allow_empty` is false. -/
def tryGetEnv (env : Env) (var : String) (allow_empty : Bool) :
    Option Str × List Warning :=
  match env.getenv var with
  | none => (none, [Warning.null var])
  | some v =>
      if v.isEmpty && !allow_empty then (some v, [Warning.empty var])
      else (some v, [])

/-- An `azure.keyvault.secrets.SecretClient`: the vault URL it was built
with and the credential it holds (the network behaviour is a boundary,
passed separately as a fetch function). -/
structure SecretClient where
  vault_url : Str
  credential : Credential
deriving DecidableEq

/-- A fully constructed `KeyVaultService` (`key_vault_service.py` lines
14–58): the certificate wrapper, the secret client and the secret
manager, in the order `__init__` assigns them. -/
structure KeyVaultService where
  certWrapper : WindowsCertCredential
  secret_client : SecretClient
  secret_manager : SecretManager
deriving DecidableEq

/-- Models `KeyVaultService.__init__` (`key_vault_service.py` lines 28–58):
reads the five environment variables, raises a plain
`Exception("Missing Key Vault configuration settings.")` when any of the
four mandatory ones is falsy, otherwise builds the
`WindowsCertCredential` (passing `password or ""`), the `SecretClient`
bound to `https://{vault_name}.vault.azure.net`, and the
`SecretManager`.  Returns the final disk, the warnings logged, and either
the service or the propagated error.  `callingAppName` abstracts
`get_calling_app_name()` as in `secretManagerInit`. -/
def keyVaultServiceInit (env : Env) (store : List CertStoreEntry)
    (callingAppName : Str) (config_scope : Option Str) (d : Disk) :
    Disk × List Warning × Except PyError KeyVaultService :=
  let t1 := tryGetEnv env "KEYVAULT_TENANT_ID" false
  let t2 := tryGetEnv env "KEYVAULT_CLIENT_ID" false
  let t3 := tryGetEnv env "KEYVAULT_THUMBPRINT" false
  let t4 := tryGetEnv env "KEYVAULT_NAME" false
  let t5 := tryGetEnv env "KEYVAULT_CERT_PASSWORD" true
  let tenant_id := t1.1
  let client_id := t2.1
  let thumbprint := t3.1
  let vault_name := t4.1
  let password := t5.1
  let warns := t1.2 ++ t2.2 ++ t3.2 ++ t4.2 ++ t5.2
  if !(truthy tenant_id && truthy client_id &&
       truthy thumbprint && truthy vault_name) then
    (d, warns, .error (.exception "Missing Key Vault configuration settings."))
  else
    match windowsCertCredentialInit store (tenant_id.getD [])
        (client_id.getD []) (thumbprint.getD [])
        (if truthy password then password.getD [] else []) d with
    | (d1, .error e) => (d1, warns, .error e)
    | (d1, .ok wcc) =>
        let client : SecretClient :=
          ⟨strLit "https://" ++ vault_name.getD [] ++
            strLit ".vault.azure.net", wcc.credential⟩
        match secretManagerInit callingAppName config_scope with
        | .error e => (d1, warns, .error e)
        | .ok mgr => (d1, warns, .ok ⟨wcc, client, mgr⟩)

/-- Models `KeyVaultService.cleanup` (`key_vault_service.py` lines 78–83) as seen
from an arbitrary object state: the argument is the `_cert_wrapper`
attribute when it exists (`none` models an object whose `__init__` failed
before the assignment, so `hasattr(self, "_cert_wrapper")` is false and
the method does nothing). -/
def kvCleanupAttr (certWrapperAttr : Option WindowsCertCredential)
    (d : Disk) : Disk × Except PyError Unit :=
  match certWrapperAttr with
  | none => (d, .ok ())
  | some w => wccCleanup w d

/-- Models `KeyVaultService.cleanup` on a fully constructed service. -/
def KeyVaultService.cleanup (svc : KeyVaultService) (d : Disk) :
    Disk × Except PyError Unit :=
  kvCleanupAttr (some svc.certWrapper) d

/-- Models `KeyVaultService.__exit__` (`key_vault_service.py` lines 105–111):
forwards to `cleanup`. -/
def kvExitAttr (certWrapperAttr : Option WindowsCertCredential)
    (d : Disk) : Disk × Except PyError Unit :=
  kvCleanupAttr certWrapperAttr d

/-- Models `KeyVaultService.get_secret` (`key_vault_service.py` lines 85–103):
builds `full_name = prefix + secret_name`, fetches it through the secret
client (`fetch` models `self.secret_client.get_secret`, an external
network call that may raise), and inside the `try` returns
`get_value(secret)` when `load(secret.properties)` accepts the record;
every exception is caught and logged, and `None` is returned on every
remaining path. -/
def kvGetSecret (mgr : SecretManager)
    (fetch : Str → Except PyError SecretRecord) (secret_name : Str) :
    Option Str :=
  let full_name := mgr.prefixStr ++ secret_name
  match fetch full_name with
  | .error _ => none
  | .ok secret =>
      if mgr.load secret.name then mgr.get_value secret else none

/-- A remote store holding a fixed table of secrets: models the Azure
`SecretClient.get_secret` boundary for concrete end-to-end runs.  A
lookup miss raises (as the SDK raises `ResourceNotFoundError`). -/
def tableFetch (entries : List (Str × Str)) (n : Str) :
    Except PyError SecretRecord :=
  match entries.find? (fun e => e.1 == n) with
  | some e => .ok ⟨e.1, e.2⟩
  | none => .error (.fetchError "SecretNotFound")

/-! ## Helper lemmas -/

/-- A prefix test of a prefixed list always succeeds. -/
theorem pyStartswith_append (p s : Str) : pyStartswith (p ++ s) p = true := by
  unfold pyStartswith
  rw [ List.isPrefixOf_iff_prefix]
  exact List.prefix_append p s

/-- Lemma: `startswith` agrees with the prefix relation on character lists. -/
theorem pyStartswith_iff (s p : Str) :
    pyStartswith s p = true ↔ ∃ t, p ++ t = s := by
  unfold pyStartswith
  rw [ List.isPrefixOf_iff_prefix]
  exact Iff.rfl

/-- Filtering out a path removes every record at that path. -/
theorem any_filter_ne (l : List (Str × Str)) (p : Str) :
    (l.filter (fun f => f.1 != p)).any (fun f => f.1 == p) = false := by
  induction l with
  | nil => rfl
  | cons a t ih =>
      by_cases h : a.1 = p
      · simp [List.filter_cons, h, ih]
      · simp [List.filter_cons, h, ih]

/-- A freshly written path exists. -/
theorem pathExists_write_self (d : Disk) (p c : Str) :
    (d.write p c).pathExists p = true := by
  simp [Disk.write, Disk.pathExists]

/-- The first projection of `_try_get_env` is just `os.getenv`. -/
theorem tryGetEnv_fst (env : Env) (var : String) (b : Bool) :
    (tryGetEnv env var b).1 = env.getenv var := by
  unfold tryGetEnv
  cases env.getenv var with
  | none => rfl
  | some v =>
      by_cases h : v.isEmpty && !b <;> simp [h]

/-- Lemma: `_try_get_env` logs the NULL warning for an unset variable. -/
theorem tryGetEnv_snd_null (env : Env) (var : String) (b : Bool)
    (h : env.getenv var = none) :
    (tryGetEnv env var b).2 = [Warning.null var] := by
  simp [tryGetEnv, h]

/-- Lemma: `_try_get_env` logs the EMPTY warning for a variable set to `""`
when empty values are not allowed. -/
theorem tryGetEnv_snd_empty (env : Env) (var : String)
    (h : env.getenv var = some []) :
    (tryGetEnv env var false).2 = [Warning.empty var] := by
  simp [tryGetEnv, h]

/-- The only error `_export_cert_with_powershell` can raise is the
`RuntimeError` wrapping the certificate-not-found diagnostic. -/
theorem exportCert_error_shape (store : List CertStoreEntry)
    (thumb : Str) (d : Disk) (e : PyError)
    (h : (exportCertWithPowershell store thumb d).2 = .error e) :
    e = .runtimeError ("PowerShell export failed:\n" ++ "Certificate not found.") := by
  unfold exportCertWithPowershell psExportScript at h
  cases hf : store.find? (fun en => psStrEq en.thumbprint thumb) with
  | none =>
      rw [hf] at h
      simp at h
      exact h.symm
  | some en =>
      rw [hf] at h
      simp at h

/-- The only error `WindowsCertCredential.__init__` can raise is the
export `RuntimeError`. -/
theorem wccInit_error_shape (store : List CertStoreEntry)
    (t c th pw : Str) (d : Disk) (e : PyError)
    (h : (windowsCertCredentialInit store t c th pw d).2 = .error e) :
    e = .runtimeError ("PowerShell export failed:\n" ++ "Certificate not found.") := by
  unfold windowsCertCredentialInit at h
  simp only [] at h
  cases hE : exportCertWithPowershell store (pyReplaceChar th ' ') d with
  | mk d1 r =>
      rw [hE] at h
      cases r with
      | error e1 =>
          simp at h
          subst h
          exact exportCert_error_shape store (pyReplaceChar th ' ') d e1 (by rw [hE])
      | ok path => simp at h

/-- The only error `SecretManager.__init__` can raise is the missing-scope
`ValueError`. -/
theorem smInit_error_shape (app : Str) (cs : Option Str) (e : PyError)
    (h : secretManagerInit app cs = .error e) :
    e = .valueError missingScopeMessage := by
  unfold secretManagerInit at h
  by_cases ht : truthy cs = true
  · simp [ht] at h
  · simp [ht] at h
    exact h.symm

/-- Lemma: `cleanup` never raises: every path returns normally. -/
theorem wccCleanup_ok (w : WindowsCertCredential) (d : Disk) :
    (wccCleanup w d).2 = .ok () := by
  unfold wccCleanup osRemove
  by_cases h1 : w.pfxPath.isEmpty
  · simp [h1]
  · by_cases h2 : d.pathExists w.pfxPath
    · simp [h1, h2]
    · simp [h1, h2]

/-- After `cleanup`, a (non-empty) artifact path no longer exists. -/
theorem wccCleanup_removes (w : WindowsCertCredential) (d : Disk)
    (hne : w.pfxPath ≠ []) :
    (wccCleanup w d).1.pathExists w.pfxPath = false := by
  have h1 : w.pfxPath.isEmpty = false := by
    simp [List.isEmpty_iff, hne]
  by_cases h2 : d.pathExists w.pfxPath
  · have hr : osRemove d w.pfxPath =
        .ok ⟨d.files.filter (fun f => f.1 != w.pfxPath)⟩ := by
      unfold osRemove
      rw [if_pos h2]
    have hg : (!w.pfxPath.isEmpty && d.pathExists w.pfxPath) = true := by
      rw [h1, h2]
      rfl
    unfold wccCleanup
    rw [hg]
    simp [hr, Disk.pathExists, any_filter_ne]
  · simp only [Bool.not_eq_true] at h2
    have hg : (!w.pfxPath.isEmpty && d.pathExists w.pfxPath) = false := by
      rw [h2, Bool.and_false]
    unfold wccCleanup
    rw [hg]
    simpa using h2

/-- A second `cleanup` is a no-op: the guard finds nothing to delete. -/
theorem wccCleanup_twice (w : WindowsCertCredential) (d : Disk) :
    wccCleanup w (wccCleanup w d).1 = ((wccCleanup w d).1, .ok ()) := by
  by_cases h1 : w.pfxPath.isEmpty
  · have hg : ∀ dd : Disk, wccCleanup w dd = (dd, .ok ()) := by
      intro dd
      unfold wccCleanup
      rw [h1]
      rfl
    rw [hg]
  · have hne : w.pfxPath ≠ [] := by
      simpa [List.isEmpty_iff] using h1
    set d1 := (wccCleanup w d).1 with hd1
    have h2 : d1.pathExists w.pfxPath = false := wccCleanup_removes w d hne
    have hg : (!w.pfxPath.isEmpty && d1.pathExists w.pfxPath) = false := by
      rw [h2, Bool.and_false]
    unfold wccCleanup
    rw [hg]
    rfl

/-- The warnings `KeyVaultService.__init__` returns are exactly the five
`_try_get_env` logs, on every path. -/
theorem kvInit_warns (env : Env) (store : List CertStoreEntry)
    (app : Str) (cs : Option Str) (d : Disk) :
    (keyVaultServiceInit env store app cs d).2.1 =
      (tryGetEnv env "KEYVAULT_TENANT_ID" false).2 ++
      (tryGetEnv env "KEYVAULT_CLIENT_ID" false).2 ++
      (tryGetEnv env "KEYVAULT_THUMBPRINT" false).2 ++
      (tryGetEnv env "KEYVAULT_NAME" false).2 ++
      (tryGetEnv env "KEYVAULT_CERT_PASSWORD" true).2 := by
  unfold keyVaultServiceInit
  simp only []
  split
  · rfl
  · split
    · rfl
    · split
      · rfl
      · rfl

/-! ## Concrete demonstration values -/

/-- The `SecretManager` built for app name `svc` and scope `PRD`
(prefix `svc-PRD--`). -/
def demoMgr : SecretManager := ⟨strLit "PRD", strLit "svc-PRD--"⟩

/-- A remote store holding the record `svc-PRD--MySecret ↦ abc123`. -/
def demoRemote : List (Str × Str) :=
  [(strLit "svc-PRD--MySecret", strLit "abc123")]

/-! ## Claims -/

/-- C2: for every non-empty `appName` and non-empty `configScope`,
construction succeeds and, for every simple name `n`, the qualified name
(`prefix + n` as `get_secret` builds it) is exactly
`"{appName}-{configScope}--" + n`, and `belongsToScope` (`load`) accepts
every qualified name (round-trip). -/
theorem C2_qualify_roundtrip (appName configScope : Str)
    (_h1 : appName ≠ []) (h2 : configScope ≠ []) :
    ∃ m : SecretManager,
      secretManagerInit appName (some configScope) = .ok m ∧
      (∀ n : Str, m.prefixStr ++ n =
        appName ++ strLit "-" ++ configScope ++ strLit "--" ++ n) ∧
      (∀ n : Str, m.load (m.prefixStr ++ n) = true) := by
  refine ⟨⟨configScope, appName ++ strLit "-" ++ configScope ++ strLit "--"⟩,
    ?_, ?_, ?_⟩
  · unfold secretManagerInit truthy
    simp [List.isEmpty_iff, h2]
  · intro n
    rfl
  · intro n
    exact pyStartswith_append _ _

/-- C2 witness: app name `svc`, scope `PRD`. -/
theorem C2_qualify_roundtrip_witness :
    ∃ m : SecretManager,
      secretManagerInit (strLit "svc") (some (strLit "PRD")) = .ok m ∧
      (∀ n : Str, m.prefixStr ++ n =
        strLit "svc" ++ strLit "-" ++ strLit "PRD" ++ strLit "--" ++ n) ∧
      (∀ n : Str, m.load (m.prefixStr ++ n) = true) :=
  C2_qualify_roundtrip (strLit "svc") (strLit "PRD")
    (by decide) (by decide)

/-- C5: `belongsToScope` (`SecretManager.load`) accepts exactly the names
having the derived prefix as a literal, case-sensitive prefix; in
particular, with prefix `svc-PRD--`, the name `svc-PRDX--secret` is
rejected. -/
theorem C5_belongs_iff :
    (∀ (m : SecretManager) (f : Str),
      m.load f = true ↔ ∃ t, m.prefixStr ++ t = f) ∧
    SecretManager.load ⟨strLit "PRD", strLit "svc-PRD--"⟩
      (strLit "svc-PRDX--secret") = false := by
  constructor
  · intro m f
    exact pyStartswith_iff f m.prefixStr
  · decide

/-- C7: `SecretManager` construction fails with the missing-scope
`ValueError` when the scope is omitted (`None`) or empty, and a
constructed manager never has an empty scope segment. -/
theorem C7_missing_scope (appName : Str) :
    secretManagerInit appName none = .error (.valueError missingScopeMessage) ∧
    secretManagerInit appName (some []) =
      .error (.valueError missingScopeMessage) ∧
    (∀ (cs : Str) (m : SecretManager),
      secretManagerInit appName (some cs) = .ok m → m.config_scope ≠ []) := by
  refine ⟨rfl, rfl, ?_⟩
  intro cs m h
  by_cases hb : cs = []
  · subst hb
    simp [secretManagerInit, truthy] at h
  · simp [secretManagerInit, truthy, List.isEmpty_iff, hb] at h
    rw [← h]
    exact hb

/-- C7 witness: construction with scope `PRD` yields a manager whose
scope segment is non-empty. -/
theorem C7_missing_scope_witness :
    secretManagerInit (strLit "svc") none =
      .error (.valueError missingScopeMessage) ∧
    demoMgr.config_scope ≠ [] :=
  ⟨(C7_missing_scope (strLit "svc")).1,
   (C7_missing_scope (strLit "svc")).2.2 (strLit "PRD") demoMgr rfl⟩

/-- C1: `get_secret(n)` fetches the name obtained by prepending the scope
prefix to `n` and, when the fetch returns a record, returns the record's
value exactly when the record's name starts with the prefix; with app
name `svc`, scope `PRD` and a remote record `svc-PRD--MySecret ↦ abc123`,
`get_secret("MySecret")` returns `abc123`; when the returned record's
name does not start with the prefix, no value is returned. -/
theorem C1_get_secret (mgr : SecretManager)
    (fetch : Str → Except PyError SecretRecord) (n : Str) :
    (∀ r : SecretRecord, fetch (mgr.prefixStr ++ n) = .ok r →
      kvGetSecret mgr fetch n =
        (if mgr.load r.name then some r.value else none)) ∧
    (secretManagerInit (strLit "svc") (some (strLit "PRD")) = .ok mgr →
      kvGetSecret mgr (tableFetch demoRemote) (strLit "MySecret") =
        some (strLit "abc123")) ∧
    (∀ r : SecretRecord, fetch (mgr.prefixStr ++ n) = .ok r →
      mgr.load r.name = false → kvGetSecret mgr fetch n = none) := by
  have hmain : ∀ r : SecretRecord, fetch (mgr.prefixStr ++ n) = .ok r →
      kvGetSecret mgr fetch n =
        (if mgr.load r.name then some r.value else none) := by
    intro r h
    unfold kvGetSecret
    simp only []
    rw [h]
    show (if mgr.load r.name = true then mgr.get_value r else none) =
      (if mgr.load r.name = true then some r.value else none)
    by_cases hl : mgr.load r.name = true
    · rw [if_pos hl, if_pos hl]
      unfold SecretManager.get_value
      unfold SecretManager.load at hl
      rw [if_pos hl]
    · rw [if_neg hl, if_neg hl]
  refine ⟨hmain, ?_, ?_⟩
  · intro h
    have hh : (Except.ok demoMgr : Except PyError SecretManager) = .ok mgr := by
      rw [← h]
      rfl
    injection hh with hmm
    rw [← hmm]
    rfl
  · intro r h hl
    rw [hmain r h, hl]
    rfl

/-- C1 witness: the end-to-end run with app `svc`, scope `PRD` and the
record `svc-PRD--MySecret ↦ abc123`. -/
theorem C1_get_secret_witness :
    tableFetch demoRemote (demoMgr.prefixStr ++ strLit "MySecret") =
      .ok ⟨strLit "svc-PRD--MySecret", strLit "abc123"⟩ ∧
    kvGetSecret demoMgr (tableFetch demoRemote) (strLit "MySecret") =
      some (strLit "abc123") :=
  ⟨rfl,
   (C1_get_secret demoMgr (tableFetch demoRemote) (strLit "MySecret")).2.1 rfl⟩

/-- C3: every failure of the remote fetch inside `get_secret` is caught
and turned into `None`; no remote-fetch error propagates (the total
return type `Option Str` has no error outcome). -/
theorem C3_fetch_error_swallowed (mgr : SecretManager)
    (fetch : Str → Except PyError SecretRecord) (n : Str) (e : PyError)
    (h : fetch (mgr.prefixStr ++ n) = .error e) :
    kvGetSecret mgr fetch n = none := by
  unfold kvGetSecret
  simp only []
  rw [h]

/-- C3 witness: a fetch that always raises an access-denied error makes
`get_secret` return `None`. -/
theorem C3_fetch_error_swallowed_witness :
    kvGetSecret demoMgr
      (fun _ => .error (.fetchError "HttpResponseError: AccessDenied"))
      (strLit "MySecret") = none :=
  C3_fetch_error_swallowed demoMgr
    (fun _ => .error (.fetchError "HttpResponseError: AccessDenied"))
    (strLit "MySecret") (.fetchError "HttpResponseError: AccessDenied") rfl

/-- C6: `cleanup` (the provider's disposal) is idempotent — the first
call returns normally, a second immediate call returns normally and
changes nothing, the artifact file is gone after the first call, and
no call ever raises for an already-removed artifact. -/
theorem C6_cleanup_idempotent (w : WindowsCertCredential) (d : Disk) :
    (wccCleanup w d).2 = .ok () ∧
    (wccCleanup w (wccCleanup w d).1).2 = .ok () ∧
    (wccCleanup w (wccCleanup w d).1).1 = (wccCleanup w d).1 ∧
    (w.pfxPath ≠ [] → (wccCleanup w d).1.pathExists w.pfxPath = false) := by
  refine ⟨wccCleanup_ok w d, ?_, ?_, fun h => wccCleanup_removes w d h⟩
  · rw [wccCleanup_twice w d]
  · rw [wccCleanup_twice w d]

/-- C6 witness: a provider whose artifact `tmp0.pfx` is on disk. -/
theorem C6_cleanup_idempotent_witness :
    (wccCleanup
        ⟨strLit "t", strLit "c", strLit "ABCD", strLit "", strLit "tmp0.pfx",
         ⟨strLit "t", strLit "c", strLit "tmp0.pfx", none⟩⟩
        ⟨[(strLit "tmp0.pfx", strLit "PFXBYTES")]⟩).1.pathExists
      (strLit "tmp0.pfx") = false :=
  (C6_cleanup_idempotent
    ⟨strLit "t", strLit "c", strLit "ABCD", strLit "", strLit "tmp0.pfx",
     ⟨strLit "t", strLit "c", strLit "tmp0.pfx", none⟩⟩
    ⟨[(strLit "tmp0.pfx", strLit "PFXBYTES")]⟩).2.2.2 (by decide)

/-- C10: on an object whose construction failed before `_cert_wrapper`
was assigned (`hasattr` is false, modelled by the attribute being
`none`), `cleanup` — directly or through `__exit__` — is a no-op and
returns normally. -/
theorem C10_cleanup_guarded (d : Disk) :
    kvCleanupAttr none d = (d, .ok ()) ∧ kvExitAttr none d = (d, .ok ()) :=
  ⟨rfl, rfl⟩

/-- Export against a store with no matching thumbprint: the temporary
file has been created (and stays), and the `RuntimeError` carrying the
not-found diagnostic is raised. -/
theorem exportCert_notFound (store : List CertStoreEntry) (thumb : Str)
    (d : Disk)
    (h : store.find? (fun e => psStrEq e.thumbprint thumb) = none) :
    exportCertWithPowershell store thumb d =
      (d.write (freshTempPath d) [],
       .error (.runtimeError
         ("PowerShell export failed:\n" ++ "Certificate not found."))) := by
  unfold exportCertWithPowershell psExportScript
  simp only []
  rw [h]

/-- The construction attempt behind the C4 analysis: empty certificate
store (the thumbprint matches nothing), empty disk. -/
def c4Run : Disk × Except PyError WindowsCertCredential :=
  windowsCertCredentialInit [] (strLit "tenant") (strLit "client")
    (strLit "DEADBEEF") (strLit "") ⟨[]⟩

/-- C4 counterexample: with a thumbprint matching no identity-store
entry, provider construction does fail and produces no credential, but —
contrary to the claim — a transient key-artifact file (the pre-allocated
temporary `.pfx`, still empty) IS left on disk: the disk is non-empty
after the failure and the temporary path exists. -/
theorem C4_counterexample :
    c4Run.2 = .error (.runtimeError
      ("PowerShell export failed:\n" ++ "Certificate not found.")) ∧
    c4Run.1.files ≠ [] ∧
    c4Run.1.pathExists (tmpName 0) = true := by
  refine ⟨rfl, ?_, rfl⟩
  decide

/-- C4 (amended): when no identity-store entry matches the (normalized)
thumbprint, provider construction fails with the `RuntimeError` carrying
the certificate-not-found diagnostic and no credential is produced, but
the pre-allocated temporary `.pfx` file — created empty before the
export ran — remains on disk. -/
theorem C4_export_failure (store : List CertStoreEntry)
    (t c thRaw pw : Str) (d : Disk)
    (h : store.find?
      (fun e => psStrEq e.thumbprint (pyReplaceChar thRaw ' ')) = none) :
    (windowsCertCredentialInit store t c thRaw pw d).2 =
      .error (.runtimeError
        ("PowerShell export failed:\n" ++ "Certificate not found.")) ∧
    (windowsCertCredentialInit store t c thRaw pw d).1 =
      d.write (freshTempPath d) [] ∧
    (windowsCertCredentialInit store t c thRaw pw d).1.pathExists
      (freshTempPath d) = true := by
  have hE := exportCert_notFound store (pyReplaceChar thRaw ' ') d h
  unfold windowsCertCredentialInit
  simp only []
  rw [hE]
  exact ⟨rfl, rfl, pathExists_write_self d _ []⟩

/-- C4 witness: the concrete failing construction of `c4Run`. -/
theorem C4_export_failure_witness :
    c4Run.2 = .error (.runtimeError
      ("PowerShell export failed:\n" ++ "Certificate not found.")) ∧
    c4Run.1 = Disk.write ⟨[]⟩ (freshTempPath ⟨[]⟩) [] ∧
    c4Run.1.pathExists (freshTempPath ⟨[]⟩) = true :=
  C4_export_failure [] (strLit "tenant") (strLit "client")
    (strLit "DEADBEEF") (strLit "") ⟨[]⟩ rfl

/-- Python whitespace characters (the claim names spaces, tabs and
newlines; this is the `str.strip()` set). -/
def isPyWhitespace (c : Char) : Bool :=
  c = ' ' || c = '\t' || c = '\n' || c = '\r' || c = '\x0b' || c = '\x0c'

/-- A certificate store whose single entry has a tab inside its
thumbprint, matching the construction input of `c9Run`. -/
def c9Store : List CertStoreEntry :=
  [⟨strLit "AB\tCD", strLit "PFXBYTES"⟩]

/-- Construction with a thumbprint containing a tab character. -/
def c9Run : Disk × Except PyError WindowsCertCredential :=
  windowsCertCredentialInit c9Store (strLit "tenant") (strLit "client")
    (strLit "AB\tCD") (strLit "") ⟨[]⟩

/-- The credential object `c9Run` produces. -/
def c9W : WindowsCertCredential :=
  ⟨strLit "tenant", strLit "client", strLit "AB\tCD", strLit "",
   tmpName 0, ⟨strLit "tenant", strLit "client", tmpName 0, none⟩⟩

/-- C9 counterexample: constructing with the thumbprint `"AB\tCD"`
succeeds and stores a thumbprint that still contains a whitespace
character (the tab) — `thumbprint.replace(" ", "")` removes only the
space character, not all whitespace as the claim states. -/
theorem C9_counterexample :
    c9Run.2 = .ok c9W ∧ c9W.thumbprint.any isPyWhitespace = true := by
  refine ⟨rfl, ?_⟩
  decide

/-- C9 (amended): the stored thumbprint is the construction input with
every space character (U+0020) removed — other whitespace such as tabs
and newlines is preserved — and it is never mutated afterwards (the
model stores it as an immutable field). -/
theorem C9_thumbprint_normalization (store : List CertStoreEntry)
    (t c thRaw pw : Str) (d : Disk) (w : WindowsCertCredential)
    (h : (windowsCertCredentialInit store t c thRaw pw d).2 = .ok w) :
    w.thumbprint = thRaw.filter (fun ch => ch ≠ ' ') ∧
    w.thumbprint.all (fun ch => ch ≠ ' ') = true := by
  unfold windowsCertCredentialInit at h
  simp only [] at h
  cases hE : exportCertWithPowershell store (pyReplaceChar thRaw ' ') d with
  | mk d1 r =>
      rw [hE] at h
      cases r with
      | error e => simp at h
      | ok path =>
          simp only [] at h
          injection h with h
          rw [← h]
          refine ⟨rfl, ?_⟩
          show (pyReplaceChar thRaw ' ').all (fun ch => ch ≠ ' ') = true
          unfold pyReplaceChar
          simp [List.all_eq_true, List.mem_filter]

/-- C9 witness: the concrete run `c9Run`. -/
theorem C9_thumbprint_normalization_witness :
    c9W.thumbprint = (strLit "AB\tCD").filter (fun ch => ch ≠ ' ') ∧
    c9W.thumbprint.all (fun ch => ch ≠ ' ') = true :=
  C9_thumbprint_normalization c9Store (strLit "tenant") (strLit "client")
    (strLit "AB\tCD") (strLit "") ⟨[]⟩ c9W rfl

/-- The four mandatory configuration variables of
`KeyVaultService.__init__`. -/
def mandatoryVars : List String :=
  ["KEYVAULT_TENANT_ID", "KEYVAULT_CLIENT_ID",
   "KEYVAULT_THUMBPRINT", "KEYVAULT_NAME"]

/-- The `all([tenant_id, client_id, thumbprint, vault_name])` test of
`key_vault_service.py` line 44, expressed on the environment (each value
`_try_get_env` returns is exactly the `os.getenv` value). -/
def mandatoryConfigPresent (env : Env) : Bool :=
  truthy (env.getenv "KEYVAULT_TENANT_ID") &&
  truthy (env.getenv "KEYVAULT_CLIENT_ID") &&
  truthy (env.getenv "KEYVAULT_THUMBPRINT") &&
  truthy (env.getenv "KEYVAULT_NAME")

/-- When a mandatory variable is absent, construction stops at the
aggregate check: original disk, configuration error. -/
theorem kvInit_missing (env : Env) (store : List CertStoreEntry)
    (app : Str) (cs : Option Str) (d : Disk)
    (hm : mandatoryConfigPresent env = false) :
    (keyVaultServiceInit env store app cs d).1 = d ∧
    (keyVaultServiceInit env store app cs d).2.2 =
      .error (.exception "Missing Key Vault configuration settings.") := by
  unfold mandatoryConfigPresent at hm
  unfold keyVaultServiceInit
  simp only [tryGetEnv_fst]
  rw [hm]
  exact ⟨rfl, rfl⟩

/-- When every mandatory variable is present, the configuration error is
never raised (any later failure is the export `RuntimeError` or the
missing-scope `ValueError`). -/
theorem kvInit_present (env : Env) (store : List CertStoreEntry)
    (app : Str) (cs : Option Str) (d : Disk)
    (hm : mandatoryConfigPresent env = true) :
    (keyVaultServiceInit env store app cs d).2.2 ≠
      .error (.exception "Missing Key Vault configuration settings.") := by
  unfold mandatoryConfigPresent at hm
  unfold keyVaultServiceInit
  simp only [tryGetEnv_fst]
  rw [hm]
  simp only [Bool.not_true]
  intro hcontra
  rw [if_neg (by simp)] at hcontra
  revert hcontra
  cases hW : windowsCertCredentialInit store
      ((env.getenv "KEYVAULT_TENANT_ID").getD [])
      ((env.getenv "KEYVAULT_CLIENT_ID").getD [])
      ((env.getenv "KEYVAULT_THUMBPRINT").getD [])
      (if truthy (env.getenv "KEYVAULT_CERT_PASSWORD") = true then
        (env.getenv "KEYVAULT_CERT_PASSWORD").getD [] else []) d with
  | mk d1 r =>
      cases r with
      | error e =>
          intro hcontra
          simp only [] at hcontra
          injection hcontra with he
          have := wccInit_error_shape store _ _ _ _ d e (by rw [hW])
          rw [this] at he
          exact PyError.noConfusion he
      | ok wcc =>
          cases hS : secretManagerInit app cs with
          | error e =>
              intro hcontra
              simp only [hS] at hcontra
              injection hcontra with he
              have := smInit_error_shape app cs e hS
              rw [this] at he
              exact PyError.noConfusion he
          | ok mgr =>
              intro hcontra
              simp only [hS] at hcontra
              exact Except.noConfusion hcontra

/-- C8: resolver construction raises the explicit configuration error
exactly when at least one of the four mandatory values (tenant id,
client id, thumbprint, store name) is absent; in that case it fails
before any certificate export or artifact creation (the disk is
untouched); and each missing (unset) or empty mandatory variable is
logged as a distinct warning naming that variable. -/
theorem C8_config_validation (env : Env) (store : List CertStoreEntry)
    (app : Str) (cs : Option Str) (d : Disk) :
    ((keyVaultServiceInit env store app cs d).2.2 =
        .error (.exception "Missing Key Vault configuration settings.") ↔
      mandatoryConfigPresent env = false) ∧
    (mandatoryConfigPresent env = false →
      (keyVaultServiceInit env store app cs d).1 = d) ∧
    (∀ v ∈ mandatoryVars, env.getenv v = none →
      Warning.null v ∈ (keyVaultServiceInit env store app cs d).2.1) ∧
    (∀ v ∈ mandatoryVars, env.getenv v = some [] →
      Warning.empty v ∈ (keyVaultServiceInit env store app cs d).2.1) := by
  refine ⟨⟨?_, ?_⟩, ?_, ?_, ?_⟩
  · intro h
    by_cases hm : mandatoryConfigPresent env = true
    · exact absurd h (kvInit_present env store app cs d hm)
    · simpa using hm
  · intro hm
    exact (kvInit_missing env store app cs d hm).2
  · intro hm
    exact (kvInit_missing env store app cs d hm).1
  · intro v hv hnone
    rw [kvInit_warns]
    simp only [mandatoryVars, List.mem_cons, List.mem_singleton] at hv
    rcases hv with rfl | rfl | rfl | hv
    · simp [tryGetEnv_snd_null _ _ _ hnone]
    · simp [tryGetEnv_snd_null _ _ _ hnone]
    · simp [tryGetEnv_snd_null _ _ _ hnone]
    · rcases hv with rfl | hv
      · simp [tryGetEnv_snd_null _ _ _ hnone]
      · simp at hv
  · intro v hv hempty
    rw [kvInit_warns]
    simp only [mandatoryVars, List.mem_cons, List.mem_singleton] at hv
    rcases hv with rfl | rfl | rfl | hv
    · simp [tryGetEnv_snd_empty _ _ hempty]
    · simp [tryGetEnv_snd_empty _ _ hempty]
    · simp [tryGetEnv_snd_empty _ _ hempty]
    · rcases hv with rfl | hv
      · simp [tryGetEnv_snd_empty _ _ hempty]
      · simp at hv

/-- An environment with the client id set to the empty string and the
store name unset (tenant id and thumbprint present). -/
def c8Env : Env :=
  ⟨[("KEYVAULT_TENANT_ID", strLit "tenant"),
    ("KEYVAULT_CLIENT_ID", []),
    ("KEYVAULT_THUMBPRINT", strLit "DEADBEEF")]⟩

/-- C8 witness: with `c8Env`, construction raises the configuration
error, leaves the (empty) disk untouched, and logs the NULL warning for
the store name and the EMPTY warning for the client id. -/
theorem C8_config_validation_witness :
    (keyVaultServiceInit c8Env [] (strLit "svc") (some (strLit "PRD"))
        ⟨[]⟩).2.2 =
      .error (.exception "Missing Key Vault configuration settings.") ∧
    (keyVaultServiceInit c8Env [] (strLit "svc") (some (strLit "PRD"))
        ⟨[]⟩).1 = (⟨[]⟩ : Disk) ∧
    Warning.null "KEYVAULT_NAME" ∈
      (keyVaultServiceInit c8Env [] (strLit "svc") (some (strLit "PRD"))
        ⟨[]⟩).2.1 ∧
    Warning.empty "KEYVAULT_CLIENT_ID" ∈
      (keyVaultServiceInit c8Env [] (strLit "svc") (some (strLit "PRD"))
        ⟨[]⟩).2.1 :=
  ⟨((C8_config_validation c8Env [] (strLit "svc") (some (strLit "PRD"))
      ⟨[]⟩).1).mpr rfl,
   (C8_config_validation c8Env [] (strLit "svc") (some (strLit "PRD"))
      ⟨[]⟩).2.1 rfl,
   (C8_config_validation c8Env [] (strLit "svc") (some (strLit "PRD"))
      ⟨[]⟩).2.2.1 "KEYVAULT_NAME" (by decide) rfl,
   (C8_config_validation c8Env [] (strLit "svc") (some (strLit "PRD"))
      ⟨[]⟩).2.2.2 "KEYVAULT_CLIENT_ID" (by decide) rfl⟩
